import Mathlib

/-!
Verification of the kite-turbine simulator core.

The source is a single React component.  Its per-frame `render` routine
advances a deployment state, an autopilot torque controller, a target
tip-speed-ratio (TSR) computation with runaway hysteresis, and the rotor
integration (TSR, RPM, kW, risk flags); a slower interval samples the physics
refs into UI values and a status string; `worldToScreen` projects world points
to the screen.  All of that arithmetic is over IEEE doubles; here it is
embedded over `ℚ` (every literal in the source is a rational, and `Math.PI`
is embedded as the exact rational value of the double-precision constant).
`Math.floor` is `Int.floor`; the trigonometric primitives used by the
projector are passed in as function parameters `cosF sinF : ℚ → ℚ`, so the
projector's branching and arithmetic structure is modelled exactly while
remaining executable.
-/

namespace KiteSim

/-- World-space point (source `Point3D`). -/
structure Point3D where
  x : ℚ
  y : ℚ
  z : ℚ
deriving DecidableEq

/-- Projected point with depth for sorting (source `ScreenPoint`). -/
structure ScreenPoint where
  x : ℚ
  y : ℚ
  z : ℚ
deriving DecidableEq

/-- Camera pose (source `cameraState.current`). -/
structure CameraState where
  theta : ℚ
  phi : ℚ
  radius : ℚ
  targetY : ℚ
  targetX : ℚ
  targetZ : ℚ

/-- Per-tick inputs read by the render loop: the React states
`envWindSpeed`, `isAutoPilot`, `bladeCount`, `bladeLengthOut`,
`bladeLengthIn`, plus the frame time `dt` computed at the top of `render`. -/
structure Inputs where
  envWindSpeed : ℚ
  isAutoPilot : Bool
  bladeCount : ℚ
  bladeLengthOut : ℚ
  bladeLengthIn : ℚ
  dt : ℚ

/-- Mutable simulation state carried across ticks: the fields of
`physicsState.current`, together with the React `torque` state (written by
the autopilot), `deploymentRef.current` and `rotationRef.current`. -/
structure PhysState where
  rpm : ℚ
  tsr : ℚ
  kw : ℤ
  compressionRisk : Bool
  overspeedRisk : Bool
  isRunaway : Bool
  optimalTsr : ℚ
  torque : ℚ
  deployment : ℚ
  rotation : ℚ

/-- Source constant `TSR_MAX_BASE = 6.0`. -/
def TSR_MAX_BASE : ℚ := 6.0

/-- Source constant `ROTOR_RADIUS_SCALE = 1050`. -/
def ROTOR_RADIUS_SCALE : ℚ := 1050

/-- Source constant `fov = 2000` (set in the render effect). -/
def fov : ℚ := 2000

/-- Source constant `MAX_SAFE_TORQUE = 80` (autopilot clamp). -/
def MAX_SAFE_TORQUE : ℚ := 80

/-- The exact rational value of the IEEE-754 double `Math.PI`. -/
def mathPI : ℚ := 884279719003555 / 281474976710656

/-! ### Projector (`worldToScreen`) -/

/-- Camera-space x after the yaw rotation (the source's `x2`). -/
def camX (cosF sinF : ℚ → ℚ) (cam : CameraState) (p : Point3D) : ℚ :=
  (p.x - cam.targetX) * cosF cam.theta - (p.z - cam.targetZ) * sinF cam.theta

/-- Camera-space z after the yaw rotation (the source's `z2`). -/
def camZ2 (cosF sinF : ℚ → ℚ) (cam : CameraState) (p : Point3D) : ℚ :=
  (p.x - cam.targetX) * sinF cam.theta + (p.z - cam.targetZ) * cosF cam.theta

/-- Camera-space y after the pitch rotation (the source's `y3`). -/
def camY (cosF sinF : ℚ → ℚ) (cam : CameraState) (p : Point3D) : ℚ :=
  (p.y - cam.targetY) * cosF cam.phi - camZ2 cosF sinF cam p * sinF cam.phi

/-- Camera-space depth (the source's `zFinal = z3 - cam.radius`). -/
def camDepth (cosF sinF : ℚ → ℚ) (cam : CameraState) (p : Point3D) : ℚ :=
  (p.y - cam.targetY) * sinF cam.phi + camZ2 cosF sinF cam p * cosF cam.phi
    - cam.radius

/-- Source `worldToScreen`.  `cosF`/`sinF` stand for `Math.cos`/`Math.sin`. -/
def worldToScreen (cosF sinF : ℚ → ℚ) (cam : CameraState) (p : Point3D)
    (width height : ℚ) : Option ScreenPoint :=
  let x := p.x - cam.targetX
  let y := p.y - cam.targetY
  let z := p.z - cam.targetZ
  let cosT := cosF cam.theta
  let sinT := sinF cam.theta
  let x2 := x * cosT - z * sinT
  let z2 := x * sinT + z * cosT
  let cosP := cosF cam.phi
  let sinP := sinF cam.phi
  let y3 := y * cosP - z2 * sinP
  let z3 := y * sinP + z2 * cosP
  let zFinal := z3 - cam.radius
  if zFinal ≥ 0 then none
  else
    let scale := fov / (fov - zFinal)
    some { x := width / 2 + x2 * scale, y := height / 2 - y3 * scale, z := zFinal }

/-! ### Deployment transition (source lines 151-162) -/

/-- `targetDeployment = isGroundedCondition ? 0.0 : 1.0` where
`isGroundedCondition = envWindSpeed <= 3`. -/
def targetDeployment (wind : ℚ) : ℚ :=
  if wind ≤ 3 then 0 else 1

/-- One update of `deploymentRef.current`: ease toward the target at rate
`deployDiff * dt * 0.8`, snapping to the target once within `0.001`. -/
def deploymentStep (wind dt d : ℚ) : ℚ :=
  let deployDiff := targetDeployment wind - d
  if |deployDiff| > 0.001 then d + deployDiff * dt * 0.8
  else targetDeployment wind

/-! ### Aerodynamic coefficients (source lines 223-229) -/

/-- `bladeCountFactor = (bladeCount - 6) * 0.25`. -/
def bladeCountFactor (bladeCount : ℚ) : ℚ := (bladeCount - 6) * 0.25

/-- `hollowFactor = (1 - bladeLengthIn / 800) * 0.5`. -/
def hollowFactor (bladeLengthIn : ℚ) : ℚ := (1 - bladeLengthIn / 800) * 0.5

/-- `lengthFactor = (bladeLengthOut - 380) / 1000 * 0.2`. -/
def lengthFactor (bladeLengthOut : ℚ) : ℚ := (bladeLengthOut - 380) / 1000 * 0.2

/-- `currentOptimalTSR = 4.0 - bladeCountFactor + hollowFactor + lengthFactor`. -/
def currentOptimalTSR (i : Inputs) : ℚ :=
  4.0 - bladeCountFactor i.bladeCount + hollowFactor i.bladeLengthIn
    + lengthFactor i.bladeLengthOut

/-- `currentMaxTSR = TSR_MAX_BASE - bladeCountFactor + hollowFactor + lengthFactor`. -/
def currentMaxTSR (i : Inputs) : ℚ :=
  TSR_MAX_BASE - bladeCountFactor i.bladeCount + hollowFactor i.bladeLengthIn
    + lengthFactor i.bladeLengthOut

/-! ### Autopilot torque controller (source lines 231-247) -/

/-- The autopilot branch.  Returns the pair
`(currentTorque used by this tick's physics, new stored torque state)`.
When the clamped proportional target differs from the stored torque by more
than `0.5`, the source sets `currentTorque = newTorque` for this tick's
physics while `setTorque` eases the stored value by 10% of the gap;
otherwise both remain the stored torque. -/
def autopilotTorque (i : Inputs) (s : PhysState) : ℚ × ℚ :=
  if i.isAutoPilot then
    let error := s.tsr - currentOptimalTSR i
    let correction := error * 2.0
    let newTorque := max 0 (min MAX_SAFE_TORQUE (s.torque + correction))
    if |newTorque - s.torque| > 0.5 then
      (newTorque, s.torque + (newTorque - s.torque) * 0.1)
    else (s.torque, s.torque)
  else (s.torque, s.torque)

/-! ### Brake ratio and target TSR with runaway hysteresis (lines 249-277) -/

/-- `windFactor = Math.max(0.1, envWindSpeed)`. -/
def windFactor (wind : ℚ) : ℚ := max 0.1 wind

/-- `requiredTorqueForOptimal = Math.pow(windFactor / 12, 2) * 100`. -/
def requiredTorqueForOptimal (wind : ℚ) : ℚ := (windFactor wind / 12) ^ 2 * 100

/-- `safeRequired = Math.max(1, requiredTorqueForOptimal)`. -/
def safeRequired (wind : ℚ) : ℚ := max 1 (requiredTorqueForOptimal wind)

/-- `brakeRatio = currentTorque / safeRequired`. -/
def brakeRatio (wind currentTorque : ℚ) : ℚ := currentTorque / safeRequired wind

/-- The grounded gate, runaway hysteresis and target-TSR computation.
Returns `(targetTSR, new isRunaway flag)`.  `depl` is the clamped
deployment, `ct` the torque used by this tick, `r` the incoming runaway
flag and `kw` the power output stored by the previous tick. -/
def targetTsrRunaway (i : Inputs) (depl ct : ℚ) (r : Bool) (kw : ℤ) : ℚ × Bool :=
  if depl < 0.5 then (0, r)
  else if r then
    if i.envWindSpeed ≤ 18 then (currentOptimalTSR i, false)
    else (6.2, true)
  else
    let br := brakeRatio i.envWindSpeed ct
    if br ≥ 1.0 then (max 0 (currentOptimalTSR i - (br - 1.0) * 2.0), r)
    else
      let t := currentOptimalTSR i + (1.0 - br) * (currentMaxTSR i - currentOptimalTSR i)
      if t > 5.8 ∧ kw ≥ 30 then (t, true) else (t, r)

/-! ### The whole physics tick (source lines 147-295) -/

/-- One full physics tick of the render loop: deployment update, autopilot,
brake ratio, target TSR with runaway hysteresis, TSR integration with
inertia `0.05`, RPM and kW derivation with the `[0,30]` clamp, risk flags,
and rotation accumulation. -/
def tick (i : Inputs) (s : PhysState) : PhysState :=
  let deployment' := deploymentStep i.envWindSpeed i.dt s.deployment
  let depl := max 0 (min 1 deployment')
  let optTSR := currentOptimalTSR i
  let ap := autopilotTorque i s
  let currentTorque := ap.1
  let torque' := ap.2
  let tr := targetTsrRunaway i depl currentTorque s.isRunaway s.kw
  let targetTSR := tr.1
  let isRunaway' := tr.2
  let inertia := 0.05
  let tsr' := s.tsr + (targetTSR - s.tsr) * inertia
  let outerRadiusM := (ROTOR_RADIUS_SCALE + i.bladeLengthOut) / 100
  let circumferenceM := 2 * mathPI * outerRadiusM
  let tipSpeedMs := tsr' * i.envWindSpeed
  let rpm' := tipSpeedMs * 60 / circumferenceM
  let bladePowerFactor := 1 + (i.bladeCount - 6) * 0.1
  let kwRaw : ℤ := ⌊currentTorque / 100 * (rpm' / 32) * 30 * bladePowerFactor⌋
  let kw' := min 30 (max 0 kwRaw)
  let radsPerSec := rpm' / 60 * 2 * mathPI
  { rpm := rpm'
    tsr := tsr'
    kw := kw'
    compressionRisk := decide (currentTorque > 85 ∧ i.envWindSpeed > 10)
    overspeedRisk := decide (tsr' > optTSR * 1.3)
    isRunaway := isRunaway'
    optimalTsr := optTSR
    torque := torque'
    deployment := deployment'
    rotation := s.rotation - radsPerSec * i.dt }

/-- The clamped deployment `depl` a tick computes and gates physics on. -/
def tickDepl (i : Inputs) (s : PhysState) : ℚ :=
  max 0 (min 1 (deploymentStep i.envWindSpeed i.dt s.deployment))

/-- The `currentTorque` a tick feeds into brake ratio, kW and risk flags. -/
def tickCurrentTorque (i : Inputs) (s : PhysState) : ℚ :=
  (autopilotTorque i s).1

/-- The `targetTSR` a tick computes. -/
def tickTargetTSR (i : Inputs) (s : PhysState) : ℚ :=
  (targetTsrRunaway i (tickDepl i s) (tickCurrentTorque i s) s.isRunaway s.kw).1

/-- Initial simulation state from the source's `useRef`/`useState`
initializers: `rpm 0, tsr 0, kw 0`, flags false, `optimalTsr 4.0`,
`torque 50`, `deploymentRef 1.0`, `rotationRef 0`. -/
def initState : PhysState :=
  { rpm := 0, tsr := 0, kw := 0, compressionRisk := false, overspeedRisk := false
    isRunaway := false, optimalTsr := 4.0, torque := 50, deployment := 1.0
    rotation := 0 }

/-- One simulation step as the user can drive it: an optional write of the
Regen Torque slider (`setTorque`, range 0-100) into the stored torque
state, followed by one render tick with the current control inputs. -/
structure Step where
  torqueSet : Option ℚ
  inputs : Inputs

/-- Apply a user torque-slider write, if any, to the stored state. -/
def applyTorqueSet (t : Option ℚ) (s : PhysState) : PhysState :=
  match t with
  | none => s
  | some v => { s with torque := v }

/-- Run a sequence of steps (optional torque-slider writes interleaved
with ticks) from the initial state. -/
def stepRun (steps : List Step) : PhysState :=
  steps.foldl (fun s st => tick st.inputs (applyTorqueSet st.torqueSet s)) initState

/-- The stated slider bounds of the per-tick render inputs: wind 0-25,
blade count 5-12, outer length 100-1500, inner length 0-800.  The torque
slider (0-100) writes the stored torque state rather than a per-tick
input; its bound is part of `stepBounds`. -/
def inputBounds (i : Inputs) : Prop :=
  0 ≤ i.envWindSpeed ∧ i.envWindSpeed ≤ 25 ∧
  5 ≤ i.bladeCount ∧ i.bladeCount ≤ 12 ∧
  100 ≤ i.bladeLengthOut ∧ i.bladeLengthOut ≤ 1500 ∧
  0 ≤ i.bladeLengthIn ∧ i.bladeLengthIn ≤ 800

instance (i : Inputs) : Decidable (inputBounds i) := by
  unfold inputBounds; infer_instance

/-- A step is in bounds when its tick inputs respect the slider ranges and
any torque-slider write lies in the slider's 0-100 range. -/
def stepBounds (st : Step) : Prop :=
  inputBounds st.inputs ∧ ∀ v, st.torqueSet = some v → 0 ≤ v ∧ v ≤ 100

/-- Strengthened per-tick invariant used to prove the exported ones. -/
def physInvariant (s : PhysState) : Prop :=
  0 ≤ s.tsr ∧ 0 ≤ s.torque ∧ s.torque ≤ 100 ∧ 0 ≤ s.kw ∧ s.kw ≤ 30

/-! ### UI sampler (source lines 106-122) and toggle gating -/

/-- The status classification of the UI interval, in source order:
`GROUNDED` if `deploymentRef < 0.5`; else `RUNAWAY` if `isRunaway`; else
`GROUNDED` if `envWindSpeed <= 3`; else `STALL`/`OVERSPEED`/`OPTIMAL`. -/
def statusOf (deployment tsr optimalTsr wind : ℚ) (isRunaway : Bool) : String :=
  if deployment < 0.5 then "GROUNDED"
  else if isRunaway then "RUNAWAY"
  else if wind ≤ 3 then "GROUNDED"
  else if tsr < optimalTsr * 0.6 then "STALL"
  else if tsr > optimalTsr * 1.25 then "OVERSPEED"
  else "OPTIMAL"

/-- `setUiGrounded(deploymentRef.current < 0.1)`. -/
def uiGroundedFlag (deployment : ℚ) : Bool := decide (deployment < 0.1)

/-- The `disabled` attribute of the autopilot toggle button:
`uiRunaway || uiGrounded`. -/
def autopilotToggleDisabled (uiRunaway uiGrounded : Bool) : Bool :=
  uiRunaway || uiGrounded

/-! ### Basic unfolding lemmas connecting `tick` to its pieces -/

theorem tick_isRunaway_eq (i : Inputs) (s : PhysState) :
    (tick i s).isRunaway
      = (targetTsrRunaway i (tickDepl i s) (tickCurrentTorque i s) s.isRunaway s.kw).2 :=
  rfl

theorem tick_tsr_eq (i : Inputs) (s : PhysState) :
    (tick i s).tsr = s.tsr + (tickTargetTSR i s - s.tsr) * 0.05 :=
  rfl

theorem tick_torque_eq (i : Inputs) (s : PhysState) :
    (tick i s).torque = (autopilotTorque i s).2 :=
  rfl

theorem tick_deployment_eq (i : Inputs) (s : PhysState) :
    (tick i s).deployment = deploymentStep i.envWindSpeed i.dt s.deployment :=
  rfl

theorem tickTargetTSR_eq (i : Inputs) (s : PhysState) :
    tickTargetTSR i s
      = (targetTsrRunaway i (tickDepl i s) (tickCurrentTorque i s)
          s.isRunaway s.kw).1 :=
  rfl

theorem currentMaxTSR_sub (i : Inputs) :
    currentMaxTSR i - currentOptimalTSR i = 2 := by
  unfold currentMaxTSR currentOptimalTSR TSR_MAX_BASE
  ring

/-! ### Claim theorems -/

/-- Claim C6: for every world point and camera pose (and any values of the
trigonometric primitives), `worldToScreen` returns no result when the
camera-space depth is `>= 0`, and otherwise returns exactly the viewport
center plus `(x*k, -y*k)` with `k = fov / (fov - zCam)`, carrying depth
`zCam`. -/
theorem C6_worldToScreen_spec (cosF sinF : ℚ → ℚ) (cam : CameraState)
    (p : Point3D) (width height : ℚ) :
    (camDepth cosF sinF cam p ≥ 0 →
      worldToScreen cosF sinF cam p width height = none) ∧
    (camDepth cosF sinF cam p < 0 →
      worldToScreen cosF sinF cam p width height =
        some { x := width / 2
                 + camX cosF sinF cam p * (fov / (fov - camDepth cosF sinF cam p))
               y := height / 2
                 - camY cosF sinF cam p * (fov / (fov - camDepth cosF sinF cam p))
               z := camDepth cosF sinF cam p }) := by
  constructor
  · intro h
    unfold worldToScreen
    rw [if_pos]
    exact h
  · intro h
    unfold worldToScreen
    rw [if_neg]
    · rfl
    · exact not_le.mpr h

/-- Witness for C6 at a concrete camera and point with `zCam = -95 < 0`. -/
theorem C6_worldToScreen_spec_witness :
    camDepth (fun _ => 1) (fun _ => 0) ⟨0, 0, 100, 0, 0, 0⟩ ⟨3, 4, 5⟩ < 0 ∧
    worldToScreen (fun _ => 1) (fun _ => 0) ⟨0, 0, 100, 0, 0, 0⟩ ⟨3, 4, 5⟩ 800 600
      = some ⟨168800 / 419, 124100 / 419, -95⟩ := by
  have h : camDepth (fun _ => 1) (fun _ => 0) ⟨0, 0, 100, 0, 0, 0⟩ ⟨3, 4, 5⟩ < 0 := by
    norm_num [camDepth, camZ2]
  refine ⟨h, ?_⟩
  rw [(C6_worldToScreen_spec (fun _ => 1) (fun _ => 0)
        ⟨0, 0, 100, 0, 0, 0⟩ ⟨3, 4, 5⟩ 800 600).2 h]
  norm_num [camDepth, camX, camY, camZ2, fov]

/-- Counterexample to claim C2: with `windSpeed = 3 <= 3`,
`deployment = 1 >= 0.5` and `isRunaway = true`, the sampled status is
`RUNAWAY`, not `GROUNDED` as the claim states (the runaway check precedes
the wind check in the source). -/
theorem C2_status_cex :
    (0.5 : ℚ) ≤ 1 ∧ (3 : ℚ) ≤ 3 ∧ statusOf 1 0 4 3 true = "RUNAWAY" ∧
      statusOf 1 0 4 3 true ≠ "GROUNDED" := by
  have hs : statusOf 1 0 4 3 true = "RUNAWAY" := by norm_num [statusOf]
  exact ⟨by norm_num, le_refl _, hs, by rw [hs]; decide⟩

/-- Amended claim C2: the actual precedence is GROUNDED if
`deployment < 0.5`; else RUNAWAY if `isRunaway`; else GROUNDED if
`wind <= 3`; else STALL if `tsr < optimalTsr*0.6`; else OVERSPEED if
`tsr > optimalTsr*1.25`; else OPTIMAL.  Stated as a full characterization
of each status value. -/
theorem C2_status_amended (d tsr opt wind : ℚ) (r : Bool) :
    (statusOf d tsr opt wind r = "GROUNDED"
      ↔ (d < 0.5 ∨ (0.5 ≤ d ∧ r = false ∧ wind ≤ 3))) ∧
    (statusOf d tsr opt wind r = "RUNAWAY" ↔ (0.5 ≤ d ∧ r = true)) ∧
    (statusOf d tsr opt wind r = "STALL"
      ↔ (0.5 ≤ d ∧ r = false ∧ 3 < wind ∧ tsr < opt * 0.6)) ∧
    (statusOf d tsr opt wind r = "OVERSPEED"
      ↔ (0.5 ≤ d ∧ r = false ∧ 3 < wind ∧ opt * 0.6 ≤ tsr ∧ opt * 1.25 < tsr)) ∧
    (statusOf d tsr opt wind r = "OPTIMAL"
      ↔ (0.5 ≤ d ∧ r = false ∧ 3 < wind ∧ opt * 0.6 ≤ tsr ∧ tsr ≤ opt * 1.25)) := by
  unfold statusOf
  split_ifs with h1 h2 h3 h4 h5 <;>
    refine ⟨?_, ?_, ?_, ?_, ?_⟩ <;>
    simp_all

/-- Claim C10: the exported grounded flag uses threshold `0.1` while the
status classification reports GROUNDED already below `0.5`; for any
deployment in `[0.1, 0.5)` the status is GROUNDED while the flag is
false. -/
theorem C10_threshold_mismatch (d tsr opt wind : ℚ) (r : Bool) :
    (uiGroundedFlag d = true ↔ d < 0.1) ∧
    (d < 0.5 → statusOf d tsr opt wind r = "GROUNDED") ∧
    (0.1 ≤ d → d < 0.5 →
      statusOf d tsr opt wind r = "GROUNDED" ∧ uiGroundedFlag d = false) := by
  refine ⟨by simp [uiGroundedFlag], ?_, ?_⟩
  · intro h
    unfold statusOf
    rw [if_pos h]
  · intro h0 h1
    refine ⟨?_, ?_⟩
    · unfold statusOf
      rw [if_pos h1]
    · simp only [uiGroundedFlag, decide_eq_false_iff_not, not_lt]
      exact h0

/-- Witness for C10 at `deployment = 0.3`. -/
theorem C10_threshold_mismatch_witness :
    statusOf 0.3 5 4 12 false = "GROUNDED" ∧ uiGroundedFlag 0.3 = false :=
  (C10_threshold_mismatch 0.3 5 4 12 false).2.2 (by norm_num) (by norm_num)

/-- Claim C1: on a tick with clamped deployment `>= 0.5`, runaway is
entered only when the computed target TSR exceeds `5.8` and the stored
`kw` is already `>= 30`; while runaway and `windSpeed > 18` the target TSR
is pinned to `6.2` and the flag stays set; the flag is cleared exactly on
a tick with `windSpeed <= 18`. -/
theorem C1_runaway_hysteresis (i : Inputs) (s : PhysState)
    (hdepl : 0.5 ≤ tickDepl i s) :
    (s.isRunaway = false → (tick i s).isRunaway = true →
      tickTargetTSR i s > 5.8 ∧ 30 ≤ s.kw) ∧
    (s.isRunaway = true →
      (18 < i.envWindSpeed →
        tickTargetTSR i s = 6.2 ∧ (tick i s).isRunaway = true) ∧
      ((tick i s).isRunaway = false ↔ i.envWindSpeed ≤ 18)) := by
  have hR : (tick i s).isRunaway
      = (targetTsrRunaway i (tickDepl i s) (tickCurrentTorque i s) s.isRunaway s.kw).2 :=
    rfl
  have hT : tickTargetTSR i s
      = (targetTsrRunaway i (tickDepl i s) (tickCurrentTorque i s) s.isRunaway s.kw).1 :=
    rfl
  rw [hR, hT]
  simp only [targetTsrRunaway]
  rw [if_neg (not_lt.mpr hdepl)]
  constructor
  · intro hfalse h2
    rw [hfalse] at h2 ⊢
    rw [if_neg Bool.false_ne_true] at h2 ⊢
    split_ifs at h2 ⊢ with hbr hent
    all_goals exact ⟨hent.1, hent.2⟩
  · intro htrue
    rw [htrue]
    rw [if_pos rfl]
    by_cases hw : i.envWindSpeed ≤ 18
    · rw [if_pos hw]
      exact ⟨fun h18 => absurd hw (not_le.mpr h18), by simp [hw]⟩
    · rw [if_neg hw]
      exact ⟨fun _ => ⟨rfl, rfl⟩, by simp [hw]⟩

/-- Witness for C1: wind 20, deployment 1, runaway already set; the tick
keeps the flag and pins the target TSR to 6.2. -/
theorem C1_runaway_hysteresis_witness :
    0.5 ≤ tickDepl ⟨20, false, 6, 380, 230, 1/60⟩
        ⟨0, 5, 30, false, false, true, 4, 50, 1, 0⟩ ∧
    tickTargetTSR ⟨20, false, 6, 380, 230, 1/60⟩
        ⟨0, 5, 30, false, false, true, 4, 50, 1, 0⟩ = 6.2 ∧
    (tick ⟨20, false, 6, 380, 230, 1/60⟩
        ⟨0, 5, 30, false, false, true, 4, 50, 1, 0⟩).isRunaway = true := by
  have hd : 0.5 ≤ tickDepl ⟨20, false, 6, 380, 230, 1/60⟩
      ⟨0, 5, 30, false, false, true, 4, 50, 1, 0⟩ := by
    norm_num [tickDepl, deploymentStep, targetDeployment]
  have h := (C1_runaway_hysteresis ⟨20, false, 6, 380, 230, 1/60⟩
      ⟨0, 5, 30, false, false, true, 4, 50, 1, 0⟩ hd).2 rfl
  exact ⟨hd, (h.1 (by norm_num)).1, (h.1 (by norm_num)).2⟩

/-- Counterexample to claim C3: at blade count 6, outer 380, inner 230 the
tick computes `optimalTsr = 4.35625` and `maxTsr = 6.35625`, not `4.0` and
`6.0` (the hollow factor `(1 - 230/800)*0.5 = 0.35625` is nonzero). -/
theorem C3_scenario_cex :
    currentOptimalTSR ⟨12, false, 6, 380, 230, 1/60⟩ = 4.35625 ∧
    (4.35625 : ℚ) ≠ 4.0 ∧
    currentMaxTSR ⟨12, false, 6, 380, 230, 1/60⟩ = 6.35625 ∧
    (6.35625 : ℚ) ≠ 6.0 := by
  refine ⟨?_, by norm_num, ?_, by norm_num⟩ <;>
    norm_num [currentOptimalTSR, currentMaxTSR, bladeCountFactor, hollowFactor,
      lengthFactor, TSR_MAX_BASE]

/-- Amended claim C3: for wind 12, torque 50, autopilot off, blade count 6,
outer 380, inner 230 the tick computes `optimalTsr = 4.35625`,
`maxTsr = 6.35625`, `requiredTorqueForOptimal = 100`, `brakeRatio = 0.5`,
hence target TSR `= 4.35625 + 0.5*(6.35625 - 4.35625) = 5.35625`, and the
TSR moves toward the target by 5% of the remaining gap per tick. -/
theorem C3_scenario_amended (rpm tsr rot opt0 dt : ℚ) (kw : ℤ) (c o : Bool) :
    currentOptimalTSR ⟨12, false, 6, 380, 230, dt⟩ = 4.35625 ∧
    currentMaxTSR ⟨12, false, 6, 380, 230, dt⟩ = 6.35625 ∧
    requiredTorqueForOptimal 12 = 100 ∧
    brakeRatio 12 50 = 0.5 ∧
    tickTargetTSR ⟨12, false, 6, 380, 230, dt⟩
        ⟨rpm, tsr, kw, c, o, false, opt0, 50, 1, rot⟩
      = 4.35625 + 0.5 * (6.35625 - 4.35625) ∧
    (tick ⟨12, false, 6, 380, 230, dt⟩
        ⟨rpm, tsr, kw, c, o, false, opt0, 50, 1, rot⟩).tsr
      = tsr + (5.35625 - tsr) * 0.05 := by
  have hdepl : tickDepl ⟨12, false, 6, 380, 230, dt⟩
      ⟨rpm, tsr, kw, c, o, false, opt0, 50, 1, rot⟩ = 1 := by
    norm_num [tickDepl, deploymentStep, targetDeployment]
  have hct : tickCurrentTorque ⟨12, false, 6, 380, 230, dt⟩
      ⟨rpm, tsr, kw, c, o, false, opt0, 50, 1, rot⟩ = 50 := rfl
  have hrun : (targetTsrRunaway ⟨12, false, 6, 380, 230, dt⟩ 1 50 false kw).1
      = 5.35625 := by
    norm_num [targetTsrRunaway, brakeRatio, safeRequired,
      requiredTorqueForOptimal, windFactor, currentOptimalTSR, currentMaxTSR,
      bladeCountFactor, hollowFactor, lengthFactor, TSR_MAX_BASE]
  have hb : (⟨rpm, tsr, kw, c, o, false, opt0, 50, 1, rot⟩ : PhysState).isRunaway
      = false := rfl
  have hkw : (⟨rpm, tsr, kw, c, o, false, opt0, 50, 1, rot⟩ : PhysState).kw
      = kw := rfl
  have h5 : tickTargetTSR ⟨12, false, 6, 380, 230, dt⟩
      ⟨rpm, tsr, kw, c, o, false, opt0, 50, 1, rot⟩ = 5.35625 := by
    rw [tickTargetTSR_eq, hdepl, hct, hb, hkw]
    exact hrun
  refine ⟨?_, ?_, ?_, ?_, by rw [h5]; norm_num, ?_⟩
  · norm_num [currentOptimalTSR, bladeCountFactor, hollowFactor, lengthFactor]
  · norm_num [currentMaxTSR, bladeCountFactor, hollowFactor, lengthFactor,
      TSR_MAX_BASE]
  · norm_num [requiredTorqueForOptimal, windFactor]
  · norm_num [brakeRatio, safeRequired, requiredTorqueForOptimal, windFactor]
  · rw [tick_tsr_eq, h5]

/-- Counterexample to claim C4: with autopilot on, wind 12, stored torque
50 and `tsr = 8`, the clamped target torque is `57.2875`, and the torque
the tick feeds into the physics is `57.2875` itself — a full jump of
`7.2875`, not a move of at most 10% of the gap (`0.72875`); only the
stored torque state is eased. -/
theorem C4_autopilot_cex :
    tickCurrentTorque ⟨12, true, 6, 380, 230, 1/60⟩
        ⟨0, 8, 0, false, false, false, 4, 50, 1, 0⟩ = 57.2875 ∧
    (tick ⟨12, true, 6, 380, 230, 1/60⟩
        ⟨0, 8, 0, false, false, false, 4, 50, 1, 0⟩).torque = 50.72875 ∧
    ¬ (|(57.2875 : ℚ) - 50| ≤ 0.1 * |(57.2875 : ℚ) - 50|) := by
  refine ⟨?_, ?_, ?_⟩
  · norm_num [tickCurrentTorque, autopilotTorque, currentOptimalTSR,
      bladeCountFactor, hollowFactor, lengthFactor, MAX_SAFE_TORQUE,
      abs_of_pos]
  · rw [tick_torque_eq]
    norm_num [autopilotTorque, currentOptimalTSR, bladeCountFactor,
      hollowFactor, lengthFactor, MAX_SAFE_TORQUE, abs_of_pos]
  · rw [abs_of_pos (by norm_num : (0:ℚ) < 57.2875 - 50)]
    norm_num

/-- Amended claim C4: under autopilot the clamped proportional target is
`clamp(torque + 2*(tsr - optimalTsr), 0, 80)`; when it differs from the
stored torque by more than 0.5, the stored torque state moves by exactly
10% of the gap, but the torque applied to this tick's physics is set
directly to the clamped target (an instantaneous jump). -/
theorem C4_autopilot_amended (i : Inputs) (s : PhysState)
    (hap : i.isAutoPilot = true)
    (hgap : |max 0 (min MAX_SAFE_TORQUE
        (s.torque + (s.tsr - currentOptimalTSR i) * 2.0)) - s.torque| > 0.5) :
    tickCurrentTorque i s
      = max 0 (min MAX_SAFE_TORQUE
          (s.torque + (s.tsr - currentOptimalTSR i) * 2.0)) ∧
    (tick i s).torque - s.torque = (tickCurrentTorque i s - s.torque) * 0.1 := by
  have h1 : autopilotTorque i s
      = (max 0 (min MAX_SAFE_TORQUE
            (s.torque + (s.tsr - currentOptimalTSR i) * 2.0)),
         s.torque + (max 0 (min MAX_SAFE_TORQUE
            (s.torque + (s.tsr - currentOptimalTSR i) * 2.0)) - s.torque) * 0.1) := by
    simp only [autopilotTorque, hap, if_true]
    rw [if_pos hgap]
  refine ⟨?_, ?_⟩
  · rw [tickCurrentTorque, h1]
  · rw [tick_torque_eq, tickCurrentTorque, h1]
    ring

/-- Witness for C4's amended claim at the counterexample input. -/
theorem C4_autopilot_amended_witness :
    |max 0 (min MAX_SAFE_TORQUE
        ((50 : ℚ) + ((8 : ℚ)
          - currentOptimalTSR ⟨12, true, 6, 380, 230, 1/60⟩) * 2.0)) - 50| > 0.5 ∧
    (tickCurrentTorque ⟨12, true, 6, 380, 230, 1/60⟩
        ⟨0, 8, 0, false, false, false, 4, 50, 1, 0⟩
      = max 0 (min MAX_SAFE_TORQUE
          ((50 : ℚ) + ((8 : ℚ)
            - currentOptimalTSR ⟨12, true, 6, 380, 230, 1/60⟩) * 2.0)) ∧
     (tick ⟨12, true, 6, 380, 230, 1/60⟩
        ⟨0, 8, 0, false, false, false, 4, 50, 1, 0⟩).torque - 50
      = (tickCurrentTorque ⟨12, true, 6, 380, 230, 1/60⟩
          ⟨0, 8, 0, false, false, false, 4, 50, 1, 0⟩ - 50) * 0.1) := by
  have hg : |max 0 (min MAX_SAFE_TORQUE
      ((50 : ℚ) + ((8 : ℚ)
        - currentOptimalTSR ⟨12, true, 6, 380, 230, 1/60⟩) * 2.0)) - 50| > 0.5 := by
    norm_num [currentOptimalTSR, bladeCountFactor, hollowFactor, lengthFactor,
      MAX_SAFE_TORQUE, abs_of_pos]
  exact ⟨hg, C4_autopilot_amended ⟨12, true, 6, 380, 230, 1/60⟩
    ⟨0, 8, 0, false, false, false, 4, 50, 1, 0⟩ rfl hg⟩

/-- Counterexample to claim C9: a tick with `isRunaway = true` and
`isAutoPilot = true` (wind 20, stored torque 50, tsr 6) still applies the
autopilot correction: the physics torque and the stored torque both
change.  The flag is never forced off; only the toggle button is
disabled. -/
theorem C9_autopilot_cex :
    ((⟨0, 6, 0, false, false, true, 4, 50, 1, 0⟩ : PhysState).isRunaway = true) ∧
    ((⟨20, true, 6, 380, 230, 1/60⟩ : Inputs).isAutoPilot = true) ∧
    tickCurrentTorque ⟨20, true, 6, 380, 230, 1/60⟩
        ⟨0, 6, 0, false, false, true, 4, 50, 1, 0⟩ = 53.2875 ∧
    (tick ⟨20, true, 6, 380, 230, 1/60⟩
        ⟨0, 6, 0, false, false, true, 4, 50, 1, 0⟩).torque = 50.32875 ∧
    (50.32875 : ℚ) ≠ 50 := by
  refine ⟨rfl, rfl, ?_, ?_, by norm_num⟩
  · norm_num [tickCurrentTorque, autopilotTorque, currentOptimalTSR,
      bladeCountFactor, hollowFactor, lengthFactor, MAX_SAFE_TORQUE,
      abs_of_pos]
  · rw [tick_torque_eq]
    norm_num [autopilotTorque, currentOptimalTSR, bladeCountFactor,
      hollowFactor, lengthFactor, MAX_SAFE_TORQUE, abs_of_pos]

/-- Amended claim C9: while runaway or grounded the source only disables
the autopilot toggle button (the flag cannot be changed by the user), it
does not clear the flag; the tick's torque controller is independent of
the runaway flag and of the deployment state, so a tick during runaway or
grounded still applies the correction whenever `isAutoPilot` is true. -/
theorem C9_autopilot_amended (r g b : Bool) (d : ℚ) (i : Inputs) (s : PhysState) :
    autopilotToggleDisabled r g = (r || g) ∧
    ((r = true ∨ g = true) → autopilotToggleDisabled r g = true) ∧
    autopilotTorque i { s with isRunaway := b, deployment := d }
      = autopilotTorque i s := by
  refine ⟨rfl, ?_, rfl⟩
  rintro (rfl | rfl) <;> simp [autopilotToggleDisabled]

/-- Witness for C9's amended claim. -/
theorem C9_autopilot_amended_witness :
    autopilotToggleDisabled true false = true :=
  (C9_autopilot_amended true false false 0 ⟨0, false, 6, 380, 230, 1⟩
    initState).2.1 (Or.inl rfl)

/-- Counterexample to claim C8: starting inside `[0,1]` at deployment `0`
with wind `12` and a tick duration `dt = 2 >= 0`, the stored deployment
becomes `1.6`, outside `[0,1]`. -/
theorem C8_deployment_cex :
    (0 : ℚ) ≤ 2 ∧ (0 : ℚ) ≤ 0 ∧ (0 : ℚ) ≤ 1 ∧
    deploymentStep 12 2 0 = 1.6 ∧ ¬ ((1.6 : ℚ) ≤ 1) := by
  refine ⟨by norm_num, le_refl _, by norm_num, ?_, by norm_num⟩
  norm_num [deploymentStep, targetDeployment]

/-- Amended claim C8: the per-tick update (ease by `(target-state)*dt*0.8`
with the `0.001` snap) keeps the stored deployment inside `[0,1]` for all
tick durations `dt` with `0 <= dt <= 1.25` (i.e. `dt*0.8 <= 1`); larger
`dt` can overshoot. -/
theorem C8_deployment_amended (wind dt d : ℚ) (h0 : 0 ≤ dt) (h1 : dt ≤ 1.25)
    (hd0 : 0 ≤ d) (hd1 : d ≤ 1) :
    0 ≤ deploymentStep wind dt d ∧ deploymentStep wind dt d ≤ 1 := by
  have h08 : 0 ≤ 1 - dt * 0.8 := by linarith
  have h08' : 0 ≤ dt * 0.8 := by nlinarith
  simp only [deploymentStep, targetDeployment]
  split_ifs with hw h2 h3
  · constructor <;> nlinarith [mul_nonneg hd0 h08, mul_nonneg hd0 h08']
  · norm_num
  · constructor <;>
      nlinarith [mul_nonneg (by linarith : (0:ℚ) ≤ 1 - d) h08,
        mul_nonneg (by linarith : (0:ℚ) ≤ 1 - d) h08']
  · norm_num

/-- Witness for C8's amended claim at `wind 12, dt 1/60, d 1/2`. -/
theorem C8_deployment_amended_witness :
    0 ≤ deploymentStep 12 (1/60) (1/2) ∧ deploymentStep 12 (1/60) (1/2) ≤ 1 :=
  C8_deployment_amended 12 (1/60) (1/2) (by norm_num) (by norm_num)
    (by norm_num) (by norm_num)

/-- With wind at most 3 and the state already within `0.001` of zero, the
deployment update snaps exactly to `0`. -/
theorem deploymentStep_grounded_snap (wind dt d : ℚ) (hw : wind ≤ 3)
    (hd0 : 0 ≤ d) (hd1 : d ≤ 0.001) : deploymentStep wind dt d = 0 := by
  simp only [deploymentStep, targetDeployment, if_pos hw]
  rw [if_neg]
  rw [zero_sub, abs_neg, abs_of_nonneg hd0]
  push_neg
  exact hd1

/-- With wind at most 3 and the state farther than `0.001` from zero, the
deployment update multiplies the state by `1 - dt*0.8`. -/
theorem deploymentStep_grounded_decay (wind dt d : ℚ) (hw : wind ≤ 3)
    (hd0 : 0 ≤ d) (hd : 0.001 < d) :
    deploymentStep wind dt d = d * (1 - dt * 0.8) := by
  simp only [deploymentStep, targetDeployment, if_pos hw]
  rw [if_pos]
  · ring
  · rw [zero_sub, abs_neg, abs_of_nonneg hd0]
    exact hd

/-- Geometric bound on the iterated grounded deployment update. -/
theorem deploy_iter_bound (wind dt : ℚ) (hw : wind ≤ 3) (h1 : dt ≤ 1.25)
    (d0 : ℚ) (hd0 : 0 ≤ d0) (n : ℕ) :
    0 ≤ (deploymentStep wind dt)^[n] d0 ∧
    (deploymentStep wind dt)^[n] d0 ≤ d0 * (1 - dt * 0.8) ^ n := by
  have hr0 : 0 ≤ 1 - dt * 0.8 := by linarith
  induction n with
  | zero => simpa using hd0
  | succ n ih =>
    obtain ⟨ha, hb⟩ := ih
    have hsucc : (deploymentStep wind dt)^[n + 1] d0
        = deploymentStep wind dt ((deploymentStep wind dt)^[n] d0) :=
      Function.iterate_succ_apply' _ _ _
    rw [hsucc]
    by_cases hc : (deploymentStep wind dt)^[n] d0 ≤ 0.001
    · rw [deploymentStep_grounded_snap wind dt _ hw ha hc]
      exact ⟨le_refl 0, mul_nonneg hd0 (pow_nonneg hr0 _)⟩
    · push_neg at hc
      rw [deploymentStep_grounded_decay wind dt _ hw ha hc]
      constructor
      · exact mul_nonneg ha hr0
      · have hstep : (deploymentStep wind dt)^[n] d0 * (1 - dt * 0.8)
            ≤ d0 * (1 - dt * 0.8) ^ n * (1 - dt * 0.8) :=
          mul_le_mul_of_nonneg_right hb hr0
        calc (deploymentStep wind dt)^[n] d0 * (1 - dt * 0.8)
            ≤ d0 * (1 - dt * 0.8) ^ n * (1 - dt * 0.8) := hstep
          _ = d0 * (1 - dt * 0.8) ^ (n + 1) := by rw [pow_succ]; ring

/-- The grounded deployment iteration reaches exactly `0` after finitely
many ticks, for any per-tick duration in `(0, 1.25]`. -/
theorem deploy_converges_zero (wind dt d0 : ℚ) (hw : wind ≤ 3) (h0 : 0 < dt)
    (h1 : dt ≤ 1.25) (hd0 : 0 ≤ d0) (hd1 : d0 ≤ 1) :
    ∃ N, (deploymentStep wind dt)^[N] d0 = 0 := by
  have hrlt : 1 - dt * 0.8 < 1 := by nlinarith
  obtain ⟨n, hn⟩ := exists_pow_lt_of_lt_one (show (0:ℚ) < 0.001 by norm_num) hrlt
  obtain ⟨ha, hb⟩ := deploy_iter_bound wind dt hw h1 d0 hd0 n
  have hpow0 : 0 ≤ (1 - dt * 0.8) ^ n := pow_nonneg (by linarith) n
  refine ⟨n + 1, ?_⟩
  have hsucc : (deploymentStep wind dt)^[n + 1] d0
      = deploymentStep wind dt ((deploymentStep wind dt)^[n] d0) :=
    Function.iterate_succ_apply' _ _ _
  rw [hsucc]
  apply deploymentStep_grounded_snap wind dt _ hw ha
  have hsmall : d0 * (1 - dt * 0.8) ^ n ≤ (1 - dt * 0.8) ^ n := by nlinarith
  linarith

/-- The deployment component of an iterated tick is the iterated
deployment update. -/
theorem tick_iter_deployment (i : Inputs) (s : PhysState) (n : ℕ) :
    ((fun t => tick i t)^[n] s).deployment
      = (deploymentStep i.envWindSpeed i.dt)^[n] s.deployment := by
  induction n with
  | zero => rfl
  | succ n ih =>
    have ha : (fun t => tick i t)^[n + 1] s
        = tick i ((fun t => tick i t)^[n] s) :=
      Function.iterate_succ_apply' _ _ _
    have hb : (deploymentStep i.envWindSpeed i.dt)^[n + 1] s.deployment
        = deploymentStep i.envWindSpeed i.dt
            ((deploymentStep i.envWindSpeed i.dt)^[n] s.deployment) :=
      Function.iterate_succ_apply' _ _ _
    rw [ha, hb, tick_deployment_eq, ih]

/-- Claim C5: with wind at most 3 the deployment target is 0 and the
stored deployment reaches exactly 0 after finitely many ticks (per-tick
duration in `(0, 1.25]`); and on any tick whose clamped deployment is
below 0.5 the target TSR is 0 regardless of torque, autopilot or the
runaway flag. -/
theorem C5_grounded_gate (i : Inputs) (hw : i.envWindSpeed ≤ 3) (h0 : 0 < i.dt)
    (h1 : i.dt ≤ 1.25) :
    targetDeployment i.envWindSpeed = 0 ∧
    (∀ s : PhysState, 0 ≤ s.deployment → s.deployment ≤ 1 →
      ∃ N, ((fun t => tick i t)^[N] s).deployment = 0) ∧
    (∀ (j : Inputs) (s : PhysState), tickDepl j s < 0.5 → tickTargetTSR j s = 0) := by
  refine ⟨by simp [targetDeployment, hw], ?_, ?_⟩
  · intro s hs0 hs1
    obtain ⟨N, hN⟩ := deploy_converges_zero i.envWindSpeed i.dt s.deployment
      hw h0 h1 hs0 hs1
    exact ⟨N, by rw [tick_iter_deployment]; exact hN⟩
  · intro j s hlt
    have hT : tickTargetTSR j s
        = (targetTsrRunaway j (tickDepl j s) (tickCurrentTorque j s)
            s.isRunaway s.kw).1 := rfl
    rw [hT]
    unfold targetTsrRunaway
    rw [if_pos hlt]

/-- Witness for C5 at wind 2, dt 1/8, from the initial state. -/
theorem C5_grounded_gate_witness :
    (2 : ℚ) ≤ 3 ∧ targetDeployment 2 = 0 ∧
    (∃ N, ((fun t => tick ⟨2, false, 6, 380, 230, 1/8⟩ t)^[N] initState).deployment = 0) := by
  have h := C5_grounded_gate ⟨2, false, 6, 380, 230, 1/8⟩ (by norm_num)
    (by norm_num) (by norm_num)
  exact ⟨by norm_num, h.1,
    h.2.1 initState (by norm_num [initState]) (by norm_num [initState])⟩

/-- The autopilot branch returns either the unchanged stored torque for
both components, or the clamped proportional target paired with the
10%-eased stored torque. -/
theorem autopilotTorque_shape (i : Inputs) (s : PhysState) :
    autopilotTorque i s = (s.torque, s.torque) ∨
    autopilotTorque i s
      = (max 0 (min MAX_SAFE_TORQUE (s.torque + (s.tsr - currentOptimalTSR i) * 2.0)),
         s.torque + (max 0 (min MAX_SAFE_TORQUE
            (s.torque + (s.tsr - currentOptimalTSR i) * 2.0)) - s.torque) * 0.1) := by
  simp only [autopilotTorque]
  split_ifs with hap hgap
  · right; rfl
  · left; rfl
  · left; rfl

/-- Both torques produced by the autopilot branch stay in `[0, 100]`. -/
theorem autopilotTorque_mem (i : Inputs) (s : PhysState)
    (h0 : 0 ≤ s.torque) (h1 : s.torque ≤ 100) :
    0 ≤ (autopilotTorque i s).1 ∧ (autopilotTorque i s).1 ≤ 100 ∧
    0 ≤ (autopilotTorque i s).2 ∧ (autopilotTorque i s).2 ≤ 100 := by
  rcases autopilotTorque_shape i s with h | h <;> rw [h] <;> dsimp only
  · exact ⟨h0, h1, h0, h1⟩
  · have hM : MAX_SAFE_TORQUE = 80 := rfl
    set z := s.torque + (s.tsr - currentOptimalTSR i) * 2.0 with hz
    have hcl0 : (0:ℚ) ≤ max 0 (min MAX_SAFE_TORQUE z) := le_max_left _ _
    have hcl1 : max 0 (min MAX_SAFE_TORQUE z) ≤ 100 := by
      apply max_le (by norm_num)
      calc min MAX_SAFE_TORQUE z ≤ MAX_SAFE_TORQUE := min_le_left _ _
        _ ≤ 100 := by rw [hM]; norm_num
    exact ⟨hcl0, hcl1, by linarith, by linarith⟩

/-- Under the slider bounds the blade-geometry optimal TSR is positive. -/
theorem currentOptimalTSR_pos (i : Inputs) (hb : inputBounds i) :
    0 < currentOptimalTSR i := by
  obtain ⟨_, _, hc1, hc2, ho1, ho2, hi1, hi2⟩ := hb
  unfold currentOptimalTSR bladeCountFactor hollowFactor lengthFactor
  linarith

/-- The brake ratio is nonnegative for a nonnegative torque. -/
theorem brakeRatio_nonneg (wind ct : ℚ) (h : 0 ≤ ct) : 0 ≤ brakeRatio wind ct := by
  unfold brakeRatio
  apply div_nonneg h
  have h1 : (1:ℚ) ≤ safeRequired wind := le_max_left _ _
  linarith

/-- Under the slider bounds and a nonnegative torque, every branch of the
target-TSR computation is nonnegative. -/
theorem targetTsr_nonneg (i : Inputs) (depl ct : ℚ) (r : Bool) (kw : ℤ)
    (hb : inputBounds i) (hct : 0 ≤ ct) :
    0 ≤ (targetTsrRunaway i depl ct r kw).1 := by
  have hopt := currentOptimalTSR_pos i hb
  have hbr0 := brakeRatio_nonneg i.envWindSpeed ct hct
  simp only [targetTsrRunaway]
  split_ifs with h1 h2 h3 h4 h5 <;> dsimp only
  · exact le_refl 0
  · linarith
  · norm_num
  · exact le_max_left _ _
  · rw [currentMaxTSR_sub i]
    push_neg at h4
    linarith
  · rw [currentMaxTSR_sub i]
    push_neg at h4
    linarith

/-- The stored kW is always the clamp of some integer into `[0, 30]`. -/
theorem tick_kw_shape (i : Inputs) (s : PhysState) :
    ∃ k : ℤ, (tick i s).kw = min 30 (max 0 k) :=
  ⟨_, rfl⟩

/-- One tick preserves the strengthened invariant. -/
theorem tick_physInvariant (i : Inputs) (s : PhysState) (hb : inputBounds i)
    (hs : physInvariant s) : physInvariant (tick i s) := by
  obtain ⟨htsr, ht0, ht1, hk0, hk1⟩ := hs
  have hap := autopilotTorque_mem i s ht0 ht1
  have htgt : 0 ≤ tickTargetTSR i s :=
    targetTsr_nonneg i (tickDepl i s) (tickCurrentTorque i s) s.isRunaway s.kw
      hb hap.1
  obtain ⟨k, hk⟩ := tick_kw_shape i s
  refine ⟨?_, ?_, ?_, ?_, ?_⟩
  · rw [tick_tsr_eq]
    linarith
  · rw [tick_torque_eq]
    exact hap.2.2.1
  · rw [tick_torque_eq]
    exact hap.2.2.2
  · rw [hk]; omega
  · rw [hk]; omega

/-- A user torque-slider write inside 0-100 preserves the invariant. -/
theorem applyTorqueSet_physInvariant (t : Option ℚ) (s : PhysState)
    (ht : ∀ v, t = some v → 0 ≤ v ∧ v ≤ 100) (hs : physInvariant s) :
    physInvariant (applyTorqueSet t s) := by
  cases t with
  | none => exact hs
  | some v =>
    obtain ⟨h1, _, _, h4, h5⟩ := hs
    obtain ⟨hv0, hv1⟩ := ht v rfl
    exact ⟨h1, hv0, hv1, h4, h5⟩

/-- Folding in-bound steps (torque-slider writes plus ticks) preserves the
invariant. -/
theorem foldl_step_physInvariant (steps : List Step) :
    ∀ s : PhysState, (∀ st ∈ steps, stepBounds st) → physInvariant s →
      physInvariant
        (steps.foldl (fun t st => tick st.inputs (applyTorqueSet st.torqueSet t)) s) := by
  induction steps with
  | nil => intro s _ hs; exact hs
  | cons a l ih =>
    intro s hb hs
    obtain ⟨hba, hbt⟩ := hb a (List.mem_cons_self a l)
    rw [List.foldl_cons]
    exact ih _ (fun j hj => hb j (List.mem_cons_of_mem a hj))
      (tick_physInvariant a.inputs _ hba
        (applyTorqueSet_physInvariant a.torqueSet s hbt hs))

/-- Claim C7: after any sequence of steps whose tick inputs are inside the
stated slider bounds and whose torque-slider writes are inside 0-100,
starting from `tsr = 0`, the stored kW (an integer by construction) lies
in `[0, 30]` and the TSR is nonnegative. -/
theorem C7_invariants (steps : List Step) (hb : ∀ st ∈ steps, stepBounds st) :
    0 ≤ (stepRun steps).kw ∧ (stepRun steps).kw ≤ 30 ∧ 0 ≤ (stepRun steps).tsr := by
  have hinit : physInvariant initState := by
    refine ⟨le_refl 0, by norm_num [initState], by norm_num [initState],
      le_refl 0, by norm_num [initState]⟩
  have h := foldl_step_physInvariant steps initState hb hinit
  exact ⟨h.2.2.2.1, h.2.2.2.2, h.1⟩

/-- Witness for C7 after one step that sets the torque slider to its
maximum 100 and ticks. -/
theorem C7_invariants_witness :
    stepBounds ⟨some 100, ⟨12, false, 6, 380, 230, 1/60⟩⟩ ∧
    (0 ≤ (stepRun [⟨some 100, ⟨12, false, 6, 380, 230, 1/60⟩⟩]).kw ∧
     (stepRun [⟨some 100, ⟨12, false, 6, 380, 230, 1/60⟩⟩]).kw ≤ 30 ∧
     0 ≤ (stepRun [⟨some 100, ⟨12, false, 6, 380, 230, 1/60⟩⟩]).tsr) := by
  have hb : stepBounds ⟨some 100, ⟨12, false, 6, 380, 230, 1/60⟩⟩ := by
    refine ⟨by norm_num [inputBounds], ?_⟩
    intro v hv
    rw [Option.some_inj] at hv
    rw [← hv]
    norm_num
  refine ⟨hb, C7_invariants [⟨some 100, ⟨12, false, 6, 380, 230, 1/60⟩⟩] ?_⟩
  intro j hj
  rw [List.mem_singleton] at hj
  rw [hj]
  exact hb

end KiteSim
